import Mathlib

/-!
Verification of the BionicPRO auth service session broker
(src/bionicpro-auth/main.py) against its specification.

The embedding models the session lifecycle manager: the Redis-backed
session and PKCE stores become association lists, the Fernet token vault
becomes a keyed tagging scheme whose decryption fails on key mismatch,
and the identity-provider HTTP calls become oracle parameters describing
the outcome of the single upstream call an endpoint makes.  Each FastAPI
endpoint (callback, logout, get_session_info, validate_session) is
translated line by line into a pure function from the request inputs and
the pre-state to the post-state and the HTTP response.  An uncaught
Python exception surfaces as a 500 response; HTTPException(c, d) as an
error response with status c and detail d.
-/

set_option autoImplicit false

namespace BionicAuth

/-- Configuration values from config.py that the handlers read. -/
structure Settings where
  token_key : Nat
  session_ttl : Nat
  access_token_ttl : Nat
  session_cookie_name : String
  frontend_url : String
deriving DecidableEq, Repr

/-- A Fernet ciphertext: an authenticated blob bound to the key that
produced it.  Decryption with a different key fails, mirroring
cryptography.fernet.InvalidToken. -/
structure Ciphertext where
  key : Nat
  payload : String
deriving DecidableEq, Repr

/-- encrypt_token from main.py: encrypt a raw token under the configured key. -/
def encrypt_token (s : Settings) (t : String) : Ciphertext :=
  ⟨s.token_key, t⟩

/-- decrypt_token from main.py: recover the raw token, failing (raising
InvalidToken in the source) when the ciphertext was not produced under the
configured key. -/
def decrypt_token (s : Settings) (c : Ciphertext) : Option String :=
  if c.key = s.token_key then some c.payload else none

/-- The session record stored in Redis (the session_data dict of callback). -/
structure SessionData where
  access_token : Ciphertext
  refresh_token : Ciphertext
  access_token_expires_at : Nat
  created_at : Nat
  user_info : Option String
deriving DecidableEq, Repr

/-- One key of the Redis session keyspace: identifier, record, and the TTL
passed to SETEX when the record was last written. -/
structure StoreEntry where
  sid : String
  data : SessionData
  ttl : Nat
deriving DecidableEq, Repr

/-- The session keyspace of Redis as an association list. -/
abbrev Store := List StoreEntry

/-- Redis GET on the session keyspace, returning the full stored entry. -/
def get_entry : Store → String → Option StoreEntry
  | [], _ => none
  | e :: t, sid => if e.sid = sid then some e else get_entry t sid

/-- get_session from main.py: Redis GET returning the session record. -/
def get_session (store : Store) (sid : String) : Option SessionData :=
  (get_entry store sid).map (fun e => e.data)

/-- delete_session from main.py: Redis DELETE. -/
def delete_session : Store → String → Store
  | [], _ => []
  | e :: t, sid =>
      if e.sid = sid then delete_session t sid else e :: delete_session t sid

/-- store_session from main.py: Redis SETEX with the configured session
TTL, overwriting any record already held under the identifier. -/
def store_session (s : Settings) (store : Store) (sid : String)
    (d : SessionData) : Store :=
  ⟨sid, d, s.session_ttl⟩ :: delete_session store sid

/-- The PKCE keyspace of Redis: state value bound to code verifier. -/
abbrev PkceStore := List (String × String)

/-- Redis GET on a pkce:state key. -/
def pkce_get : PkceStore → String → Option String
  | [], _ => none
  | (st, v) :: t, state => if st = state then some v else pkce_get t state

/-- Redis DELETE on a pkce:state key. -/
def pkce_delete : PkceStore → String → PkceStore
  | [], _ => []
  | (st, v) :: t, state =>
      if st = state then pkce_delete t state
      else (st, v) :: pkce_delete t state

/-- Redis SETEX on a pkce:state key, as performed by login. -/
def pkce_bind (p : PkceStore) (state verifier : String) : PkceStore :=
  (state, verifier) :: pkce_delete p state

/-- A successful token response from Keycloak: access and refresh token
plus the optional expires_in field. -/
structure TokenResponse where
  access_token : String
  refresh_token : String
  expires_in : Option Nat
deriving DecidableEq, Repr

/-- Outcome of one refresh (or code-exchange) HTTP call to the provider:
2xx with a body, an explicit non-2xx rejection (the source raises
HTTPException 401), or a network/timeout failure (httpx raises). -/
inductive UpstreamResult where
  | ok (toks : TokenResponse)
  | rejected
  | unavailable
deriving DecidableEq, Repr

/-- The in-place update the refresh branch applies to the session dict:
replace both encrypted tokens and recompute access_token_expires_at from
the current time; every other field is left as it was. -/
def refreshed_session (s : Settings) (now : Nat) (sess : SessionData)
    (toks : TokenResponse) : SessionData :=
  { sess with
    access_token := encrypt_token s toks.access_token
    refresh_token := encrypt_token s toks.refresh_token
    access_token_expires_at := now + toks.expires_in.getD s.access_token_ttl }

/-- The secure session cookie built by set_session_cookie in main.py. -/
structure SessionCookie where
  name : String
  value : String
  http_only : Bool
  secure : Bool
  same_site : String
  max_age : Nat
deriving DecidableEq, Repr

/-- set_session_cookie from main.py: the cookie value is the opaque session
identifier, with httponly, secure, SameSite=lax and max-age the session TTL. -/
def set_session_cookie (s : Settings) (sid : String) : SessionCookie :=
  ⟨s.session_cookie_name, sid, true, true, "lax", s.session_ttl⟩

/-- HTTP result of GET /auth/validate. -/
inductive ValidateResponse where
  | ok (access_token : String)
  | err (status : Nat) (detail : String)
deriving DecidableEq, Repr

/-- Post-state and response of one validate_session execution, together
with the number of refresh HTTP calls it made to the provider. -/
structure ValidateOutcome where
  store : Store
  response : ValidateResponse
  upstream_calls : Nat
deriving DecidableEq, Repr

/-- The body of validate_session after the session record has been read
from Redis (main.py lines 338-356): refresh when the access token has
expired, persisting under the same identifier, then decrypt and return
the raw access token.  The final decrypt_token call sits outside the
try/except, so its failure is an uncaught exception: a 500 response with
no session deletion. -/
def validate_afterRead (s : Settings) (now : Nat) (store : Store)
    (sid : String) (sess : SessionData) (upstream : UpstreamResult) :
    ValidateOutcome :=
  if sess.access_token_expires_at ≤ now then
    match decrypt_token s sess.refresh_token with
    | none => ⟨delete_session store sid, .err 401 "Session expired", 0⟩
    | some _ =>
        match upstream with
        | .ok toks =>
            let sess := refreshed_session s now sess toks
            let store := store_session s store sid sess
            match decrypt_token s sess.access_token with
            | some tok => ⟨store, .ok tok, 1⟩
            | none => ⟨store, .err 500 "Internal Server Error", 1⟩
        | .rejected => ⟨delete_session store sid, .err 401 "Session expired", 1⟩
        | .unavailable => ⟨delete_session store sid, .err 401 "Session expired", 1⟩
  else
    match decrypt_token s sess.access_token with
    | some tok => ⟨store, .ok tok, 0⟩
    | none => ⟨store, .err 500 "Internal Server Error", 0⟩

/-- validate_session from main.py: GET /auth/validate.  Reads the cookie,
loads the session, runs the refresh check, and returns the decrypted raw
access token for internal callers. -/
def validate_session (s : Settings) (now : Nat) (store : Store)
    (cookie : Option String) (upstream : UpstreamResult) : ValidateOutcome :=
  match cookie with
  | none => ⟨store, .err 401 "No session", 0⟩
  | some sid =>
      match get_session store sid with
      | none => ⟨store, .err 401 "Invalid session", 0⟩
      | some sess => validate_afterRead s now store sid sess upstream

/-- HTTP result of GET /auth/session: on success a JSON body of exactly
the authenticated flag and the session validity deadline, plus the
rotated session cookie. -/
inductive InfoResponse where
  | ok (authenticated : Bool) (session_valid_until : Nat) (cookie : SessionCookie)
  | err (status : Nat) (detail : String)
deriving DecidableEq, Repr

/-- Post-state and response of one get_session_info execution, with the
number of refresh HTTP calls made to the provider. -/
structure InfoOutcome where
  store : Store
  response : InfoResponse
  upstream_calls : Nat
deriving DecidableEq, Repr

/-- The body of get_session_info after the session record has been read
from Redis (main.py lines 293-320): refresh when expired, then rotate the
identifier (delete the old key, store the record under a fresh one), set
the new cookie, and answer with the authenticated flag and
created_at + session_ttl. -/
def info_afterRead (s : Settings) (now : Nat) (store : Store) (sid : String)
    (sess : SessionData) (upstream : UpstreamResult) (newSid : String) :
    InfoOutcome :=
  if sess.access_token_expires_at ≤ now then
    match decrypt_token s sess.refresh_token with
    | none => ⟨delete_session store sid, .err 401 "Session expired", 0⟩
    | some _ =>
        match upstream with
        | .ok toks =>
            let sess := refreshed_session s now sess toks
            let store := store_session s (delete_session store sid) newSid sess
            ⟨store,
             .ok true (sess.created_at + s.session_ttl)
               (set_session_cookie s newSid), 1⟩
        | .rejected => ⟨delete_session store sid, .err 401 "Session expired", 1⟩
        | .unavailable => ⟨delete_session store sid, .err 401 "Session expired", 1⟩
  else
    let store := store_session s (delete_session store sid) newSid sess
    ⟨store,
     .ok true (sess.created_at + s.session_ttl)
       (set_session_cookie s newSid), 0⟩

/-- get_session_info from main.py: GET /auth/session.  Reads the cookie,
loads the session, runs the refresh check, rotates the identifier to
newSid (the fresh output of generate_session_id), and never returns a
token. -/
def get_session_info (s : Settings) (now : Nat) (store : Store)
    (cookie : Option String) (upstream : UpstreamResult) (newSid : String) :
    InfoOutcome :=
  match cookie with
  | none => ⟨store, .err 401 "No session", 0⟩
  | some sid =>
      match get_session store sid with
      | none => ⟨store, .err 401 "Invalid session", 0⟩
      | some sess => info_afterRead s now store sid sess upstream newSid

/-- Outcome of the best-effort provider revoke call issued by logout. -/
inductive RevokeResult where
  | ok
  | failed
deriving DecidableEq, Repr

/-- Post-state and response of logout: the endpoint always redirects to
the front end and always clears the cookie; it never produces an error
response. -/
structure LogoutOutcome where
  store : Store
  redirect_url : String
  cookie_cleared : Bool
  revoke_attempted : Bool
deriving DecidableEq, Repr

/-- logout from main.py: GET /auth/logout.  When a cookie is present and
the session record exists, decrypt the refresh token and post it to the
provider logout endpoint inside a try/except whose handler is pass, so
both a decryption failure and any revoke failure are swallowed; then
delete the local session unconditionally, clear the cookie, and redirect. -/
def logout (s : Settings) (store : Store) (cookie : Option String)
    (revoke : RevokeResult) : LogoutOutcome :=
  match cookie with
  | none => ⟨store, s.frontend_url, true, false⟩
  | some sid =>
      let attempted :=
        match get_session store sid with
        | none => false
        | some sess => (decrypt_token s sess.refresh_token).isSome
      match revoke with
      | _ => ⟨delete_session store sid, s.frontend_url, true, attempted⟩

/-- Outcome of the code-exchange HTTP call made by callback: 2xx with
tokens, non-2xx (the source raises HTTPException 401), or a network
failure (httpx raises, surfacing as an uncaught 500). -/
inductive ExchangeResult where
  | ok (toks : TokenResponse)
  | rejected
  | unavailable
deriving DecidableEq, Repr

/-- HTTP result of GET /auth/callback. -/
inductive CallbackResponse where
  | redirect (url : String) (cookie : SessionCookie)
  | err (status : Nat) (detail : String)
deriving DecidableEq, Repr

/-- Post-state and response of one callback execution. -/
structure CallbackOutcome where
  store : Store
  pkce : PkceStore
  response : CallbackResponse
deriving DecidableEq, Repr

/-- The body of callback after the pkce:state key has been read (main.py
lines 219-246): delete the binding, exchange the code, build the session
record with both tokens encrypted, store it under the fresh identifier,
set the cookie, redirect to the front end. -/
def callback_afterGet (s : Settings) (now : Nat) (store : Store)
    (pkce : PkceStore) (state : String) (exchange : ExchangeResult)
    (newSid : String) : CallbackOutcome :=
  let pkce := pkce_delete pkce state
  match exchange with
  | .rejected => ⟨store, pkce, .err 401 "Token exchange failed"⟩
  | .unavailable => ⟨store, pkce, .err 500 "Internal Server Error"⟩
  | .ok toks =>
      let sess : SessionData :=
        { access_token := encrypt_token s toks.access_token
          refresh_token := encrypt_token s toks.refresh_token
          access_token_expires_at := now + toks.expires_in.getD s.access_token_ttl
          created_at := now
          user_info := none }
      ⟨store_session s store newSid sess, pkce,
       .redirect s.frontend_url (set_session_cookie s newSid)⟩

/-- callback from main.py: GET /auth/callback.  Reads the pkce:state
binding (rejecting with 400 when absent) and proceeds with the exchange.
The read and the delete of the binding are two separate Redis commands,
not an atomic get-and-delete. -/
def callback (s : Settings) (now : Nat) (store : Store) (pkce : PkceStore)
    (state : String) (exchange : ExchangeResult) (newSid : String) :
    CallbackOutcome :=
  match pkce_get pkce state with
  | none => ⟨store, pkce, .err 400 "Invalid or expired state"⟩
  | some _verifier => callback_afterGet s now store pkce state exchange newSid

/-- Result of GET /auth/login: the pkce binding written and the redirect
to the provider authorization endpoint.  No token value is in scope. -/
structure LoginOutcome where
  pkce : PkceStore
  state : String
deriving DecidableEq, Repr

/-- login from main.py: GET /auth/login.  Binds the freshly generated
verifier under the freshly generated state with a 300 second TTL and
redirects to the provider. -/
def login (pkce : PkceStore) (verifier state : String) : LoginOutcome :=
  ⟨pkce_bind pkce state verifier, state⟩

/-- Two validate_session executions racing on the same session
identifier under the schedule in which both Redis reads happen before
either execution runs its refresh-and-write tail.  Each read is one
Redis GET and the tail spans further Redis commands, so this is a legal
interleaving of the source, which takes no lock and does no conditional
write.  Both executions therefore act on the record as it was before
either refresh. -/
structure PairOutcome where
  store : Store
  response1 : ValidateResponse
  response2 : ValidateResponse
  upstream_calls : Nat
deriving DecidableEq, Repr

/-- Interleaved execution of two concurrent validate_session requests on
one session identifier: both read first, then each tail runs in turn. -/
def validate_pair_bothReadFirst (s : Settings) (now : Nat) (store : Store)
    (sid : String) (up1 up2 : UpstreamResult) : PairOutcome :=
  match get_session store sid with
  | none => ⟨store, .err 401 "Invalid session", .err 401 "Invalid session", 0⟩
  | some sess =>
      let o1 := validate_afterRead s now store sid sess up1
      let o2 := validate_afterRead s now o1.store sid sess up2
      ⟨o2.store, o1.response, o2.response, o1.upstream_calls + o2.upstream_calls⟩

/-- Interleaved execution of two concurrent callback requests presenting
the same state value, under the schedule in which both Redis GETs of the
pkce:state key happen before either DELETE: legal because the source
issues GET and DELETE as two separate commands. -/
structure CallbackPairOutcome where
  store : Store
  pkce : PkceStore
  response1 : CallbackResponse
  response2 : CallbackResponse
deriving DecidableEq, Repr

/-- Two callbacks racing on one state value: both GETs first, then each
tail in turn. -/
def callback_pair_bothGetFirst (s : Settings) (now : Nat) (store : Store)
    (pkce : PkceStore) (state : String) (ex1 ex2 : ExchangeResult)
    (sid1 sid2 : String) : CallbackPairOutcome :=
  match pkce_get pkce state with
  | none =>
      ⟨store, pkce, .err 400 "Invalid or expired state",
       .err 400 "Invalid or expired state"⟩
  | some _v =>
      let o1 := callback_afterGet s now store pkce state ex1 sid1
      let o2 := callback_afterGet s now o1.store o1.pkce state ex2 sid2
      ⟨o2.store, o2.pkce, o1.response, o2.response⟩

/-! Basic facts about the store and the vault used by the claim proofs. -/

theorem get_entry_delete_self (st : Store) (sid : String) :
    get_entry (delete_session st sid) sid = none := by
  induction st with
  | nil => rfl
  | cons e t ih =>
      by_cases h : e.sid = sid
      · simpa [delete_session, h] using ih
      · simpa [delete_session, h, get_entry] using ih

theorem get_entry_delete_other (st : Store) (sid k : String) (h : k ≠ sid) :
    get_entry (delete_session st sid) k = get_entry st k := by
  induction st with
  | nil => rfl
  | cons e t ih =>
      simp only [delete_session]
      by_cases he : e.sid = sid
      · have hek : e.sid ≠ k := fun hk => h (hk.symm.trans he)
        rw [if_pos he]
        simp only [get_entry, if_neg hek]
        exact ih
      · rw [if_neg he]
        by_cases hek : e.sid = k
        · simp only [get_entry, if_pos hek]
        · simp only [get_entry, if_neg hek]
          exact ih

theorem get_session_delete_self (st : Store) (sid : String) :
    get_session (delete_session st sid) sid = none := by
  simp [get_session, get_entry_delete_self]

theorem get_session_delete_other (st : Store) (sid k : String) (h : k ≠ sid) :
    get_session (delete_session st sid) k = get_session st k := by
  simp [get_session, get_entry_delete_other st sid k h]

theorem get_entry_store_self (s : Settings) (st : Store) (sid : String)
    (d : SessionData) :
    get_entry (store_session s st sid d) sid = some ⟨sid, d, s.session_ttl⟩ := by
  simp [store_session, get_entry]

theorem get_session_store_self (s : Settings) (st : Store) (sid : String)
    (d : SessionData) :
    get_session (store_session s st sid d) sid = some d := by
  simp [get_session, get_entry_store_self]

theorem get_session_store_other (s : Settings) (st : Store) (sid k : String)
    (d : SessionData) (h : k ≠ sid) :
    get_session (store_session s st sid d) k = get_session st k := by
  have hne : sid ≠ k := fun hk => h hk.symm
  simp [get_session, store_session, get_entry, hne,
    get_entry_delete_other st sid k h]

theorem pkce_get_delete_self (p : PkceStore) (state : String) :
    pkce_get (pkce_delete p state) state = none := by
  induction p with
  | nil => rfl
  | cons e t ih =>
      by_cases h : e.1 = state
      · simpa [pkce_delete, h] using ih
      · simpa [pkce_delete, h, pkce_get] using ih

theorem decrypt_encrypt (s : Settings) (t : String) :
    decrypt_token s (encrypt_token s t) = some t := by
  simp [decrypt_token, encrypt_token]

/-! Concrete fixtures used by witnesses and counterexamples. -/

/-- A concrete configuration: encryption key 7, one-hour session TTL,
two-minute access-token fallback TTL, as in config.py. -/
def sampleSettings : Settings :=
  ⟨7, 3600, 120, "bionicpro_session", "http://localhost:3000"⟩

/-- A concrete session record created at time 500 whose access token
expires at time 1000; both tokens encrypted under the configured key. -/
def sampleSession : SessionData :=
  ⟨⟨7, "acc0"⟩, ⟨7, "ref0"⟩, 1000, 500, none⟩

/-- A store holding sampleSession under the identifier sid0. -/
def sampleStore : Store := [⟨"sid0", sampleSession, 3600⟩]

/-- A concrete successful token response from the provider. -/
def sampleToks : TokenResponse := ⟨"acc1", "ref1", some 300⟩

/-- A second concrete token response, distinct from sampleToks. -/
def sampleToks2 : TokenResponse := ⟨"acc2", "ref2", none⟩

/-- A session record whose stored access token was produced under key 9,
not the configured key 7, so decrypting it fails; it is not yet expired
at time 1000. -/
def corruptSession : SessionData :=
  ⟨⟨9, "accX"⟩, ⟨7, "ref0"⟩, 2000, 500, none⟩

/-- A store holding corruptSession under the identifier sidC. -/
def corruptStore : Store := [⟨"sidC", corruptSession, 3600⟩]

/-- A PKCE store binding state st0 to verifier ver0. -/
def samplePkce : PkceStore := [("st0", "ver0")]

/-- C4: EnsureFresh, as run by both Session-Info and Validate, makes zero
upstream calls and reuses the session record as-is whenever
now < access_token_expires_at, and takes exactly the refresh path, one
refresh exchange, whenever now >= access_token_expires_at (with the
stored refresh token decryptable, as every record written by this
service is); the refresh never fires before the deadline. -/
theorem ensure_fresh_reactive_only
    (s : Settings) (now : Nat) (store : Store) (sid newSid : String)
    (sess : SessionData) (up : UpstreamResult) (rt : String)
    (hget : get_session store sid = some sess) :
    (now < sess.access_token_expires_at →
       (validate_session s now store (some sid) up).upstream_calls = 0 ∧
       (validate_session s now store (some sid) up).store = store ∧
       (get_session_info s now store (some sid) up newSid).upstream_calls = 0 ∧
       get_session (get_session_info s now store (some sid) up newSid).store newSid
         = some sess) ∧
    (sess.access_token_expires_at ≤ now →
       decrypt_token s sess.refresh_token = some rt →
       (validate_session s now store (some sid) up).upstream_calls = 1 ∧
       (get_session_info s now store (some sid) up newSid).upstream_calls = 1) := by
  constructor
  · intro h
    have hn : ¬ sess.access_token_expires_at ≤ now := not_le.mpr h
    simp only [validate_session, get_session_info, hget]
    simp only [validate_afterRead, info_afterRead, if_neg hn]
    cases hd : decrypt_token s sess.access_token <;>
      simp [hd, get_session_store_self]
  · intro h hdec
    simp only [validate_session, get_session_info, hget]
    simp only [validate_afterRead, info_afterRead, if_pos h, hdec]
    cases up <;> simp [refreshed_session, decrypt_encrypt]

/-- C4 witness: on the sample store, Validate makes exactly one upstream
call at time 1000 (the expiry deadline) and zero at time 700. -/
theorem ensure_fresh_reactive_only_witness :
    (validate_session sampleSettings 1000 sampleStore (some "sid0")
        (.ok sampleToks)).upstream_calls = 1 ∧
    (validate_session sampleSettings 700 sampleStore (some "sid0")
        (.ok sampleToks)).upstream_calls = 0 := by
  constructor
  · exact ((ensure_fresh_reactive_only sampleSettings 1000 sampleStore "sid0"
      "new0" sampleSession (.ok sampleToks) "ref0" (by decide)).2
      (by decide) (by decide)).1
  · exact ((ensure_fresh_reactive_only sampleSettings 700 sampleStore "sid0"
      "new0" sampleSession (.ok sampleToks) "ref0" (by decide)).1 (by decide)).1

/-- C1 counterexample: at time 1000 the sample session has expired; a
network/timeout failure of the refresh call (UpstreamUnavailable) makes
both Validate and Session-Info delete the stored record and answer 401,
so the session is not left intact for retry, contradicting the claim. -/
theorem timeout_deletes_session_cex :
    (validate_session sampleSettings 1000 sampleStore (some "sid0")
        .unavailable).response = .err 401 "Session expired" ∧
    get_session (validate_session sampleSettings 1000 sampleStore (some "sid0")
        .unavailable).store "sid0" = none ∧
    get_session (get_session_info sampleSettings 1000 sampleStore (some "sid0")
        .unavailable "new0").store "sid0" = none := by
  decide

/-- C1 amended: the source wraps the whole refresh block in one
except-Exception handler, so an upstream rejection and a network/timeout
failure are treated identically: either way EnsureFresh, as run by both
Session-Info and Validate, deletes the stored session record and answers
401 Session expired; no refresh failure leaves the session retryable. -/
theorem refresh_failure_deletes_session
    (s : Settings) (now : Nat) (store : Store) (sid newSid : String)
    (sess : SessionData) (up : UpstreamResult) (rt : String)
    (hget : get_session store sid = some sess)
    (hexp : sess.access_token_expires_at ≤ now)
    (hdec : decrypt_token s sess.refresh_token = some rt)
    (hup : up = .rejected ∨ up = .unavailable) :
    (validate_session s now store (some sid) up).store = delete_session store sid ∧
    (validate_session s now store (some sid) up).response
      = .err 401 "Session expired" ∧
    (get_session_info s now store (some sid) up newSid).store
      = delete_session store sid ∧
    (get_session_info s now store (some sid) up newSid).response
      = .err 401 "Session expired" := by
  simp only [validate_session, get_session_info, hget]
  simp only [validate_afterRead, info_afterRead, if_pos hexp, hdec]
  rcases hup with hup | hup <;> subst hup <;> simp

/-- C1 amended witness: the amended claim applied at the concrete inputs
of the counterexample. -/
theorem refresh_failure_deletes_session_witness :
    (validate_session sampleSettings 1000 sampleStore (some "sid0")
        .unavailable).store = delete_session sampleStore "sid0" :=
  (refresh_failure_deletes_session sampleSettings 1000 sampleStore "sid0" "new0"
    sampleSession .unavailable "ref0" (by decide) (by decide) (by decide)
    (Or.inr rfl)).1

/-- C2 counterexample: two Validate executions race on the expired sample
session under the legal schedule in which both read the record before
either writes.  Both executions call the provider (two upstream refresh
exchanges, not at most one), so the loser does not observe the refreshed
record; with the provider rejecting the second, already-consumed refresh
token, the loser then deletes the record the winner had just refreshed. -/
theorem concurrent_refresh_cex :
    (validate_pair_bothReadFirst sampleSettings 1000 sampleStore "sid0"
        (.ok sampleToks) .rejected).upstream_calls = 2 ∧
    get_session (validate_pair_bothReadFirst sampleSettings 1000 sampleStore
        "sid0" (.ok sampleToks) .rejected).store "sid0" = none := by
  decide

/-- C2 amended: the implementation has no per-session serialization and
no optimistic concurrency.  Whenever two EnsureFresh executions on one
expired session interleave read-before-write, both perform an upstream
refresh exchange; under the provider's single-use refresh-token contract
the loser's exchange is rejected, whereupon the loser deletes the
session record, destroying the winner's freshly refreshed session. -/
theorem concurrent_refresh_unserialized
    (s : Settings) (now : Nat) (store : Store) (sid : String)
    (sess : SessionData) (toks : TokenResponse) (rt : String)
    (hget : get_session store sid = some sess)
    (hexp : sess.access_token_expires_at ≤ now)
    (hdec : decrypt_token s sess.refresh_token = some rt) :
    (validate_pair_bothReadFirst s now store sid (.ok toks)
        .rejected).upstream_calls = 2 ∧
    (validate_pair_bothReadFirst s now store sid (.ok toks)
        .rejected).response1 = .ok toks.access_token ∧
    get_session (validate_pair_bothReadFirst s now store sid (.ok toks)
        .rejected).store sid = none := by
  simp only [validate_pair_bothReadFirst, hget]
  simp only [validate_afterRead, if_pos hexp, hdec]
  simp [refreshed_session, decrypt_encrypt, get_session_delete_self,
    encrypt_token, decrypt_token]

/-- C2 amended witness: the amended claim applied at the concrete inputs
of the counterexample. -/
theorem concurrent_refresh_unserialized_witness :
    (validate_pair_bothReadFirst sampleSettings 1000 sampleStore "sid0"
        (.ok sampleToks) .rejected).response1 = .ok "acc1" :=
  (concurrent_refresh_unserialized sampleSettings 1000 sampleStore "sid0"
    sampleSession sampleToks "ref0" (by decide) (by decide) (by decide)).2.1

/-- C3 counterexample: two concurrent Callbacks present the same state
value; the source reads and deletes the pkce binding with two separate
Redis commands, so under the legal schedule in which both reads precede
either delete both consumes succeed: both executions answer with a
success redirect and two distinct sessions exist afterwards,
contradicting the claim that two concurrent consumes must not both
succeed. -/
theorem pkce_double_consume_cex :
    (callback_pair_bothGetFirst sampleSettings 500 [] samplePkce "st0"
        (.ok sampleToks) (.ok sampleToks2) "sidA" "sidB").response1
      = .redirect "http://localhost:3000"
          (set_session_cookie sampleSettings "sidA") ∧
    (callback_pair_bothGetFirst sampleSettings 500 [] samplePkce "st0"
        (.ok sampleToks) (.ok sampleToks2) "sidA" "sidB").response2
      = .redirect "http://localhost:3000"
          (set_session_cookie sampleSettings "sidB") ∧
    (get_session (callback_pair_bothGetFirst sampleSettings 500 [] samplePkce
        "st0" (.ok sampleToks) (.ok sampleToks2) "sidA" "sidB").store
        "sidA").isSome = true ∧
    (get_session (callback_pair_bothGetFirst sampleSettings 500 [] samplePkce
        "st0" (.ok sampleToks) (.ok sampleToks2) "sidA" "sidB").store
        "sidB").isSome = true := by
  decide

/-- C3 amended: sequentially the claim holds: a valid (code, state) pair
makes Callback create exactly one session (no other identifier changes),
consume the binding, and answer with the redirect, and a second Callback
replaying the same state fails InvalidState (400) changing nothing.  The
consume, however, is a non-atomic get-then-delete, so two concurrent
consumes of the same state interleaving get-before-delete both succeed. -/
theorem callback_consume_once
    (s : Settings) (now : Nat) (store : Store) (pkce : PkceStore)
    (state v newSid newSid2 sidA sidB : String) (toks toks2 : TokenResponse)
    (ex2 : ExchangeResult)
    (hp : pkce_get pkce state = some v) :
    get_session (callback s now store pkce state (.ok toks) newSid).store newSid
      = some ⟨encrypt_token s toks.access_token, encrypt_token s toks.refresh_token,
              now + toks.expires_in.getD s.access_token_ttl, now, none⟩ ∧
    (∀ k, k ≠ newSid →
       get_session (callback s now store pkce state (.ok toks) newSid).store k
         = get_session store k) ∧
    pkce_get (callback s now store pkce state (.ok toks) newSid).pkce state
      = none ∧
    (callback s now store pkce state (.ok toks) newSid).response
      = .redirect s.frontend_url (set_session_cookie s newSid) ∧
    callback s now (callback s now store pkce state (.ok toks) newSid).store
        (callback s now store pkce state (.ok toks) newSid).pkce state ex2 newSid2
      = ⟨(callback s now store pkce state (.ok toks) newSid).store,
         (callback s now store pkce state (.ok toks) newSid).pkce,
         .err 400 "Invalid or expired state"⟩ ∧
    (callback_pair_bothGetFirst s now store pkce state (.ok toks) (.ok toks2)
        sidA sidB).response1
      = .redirect s.frontend_url (set_session_cookie s sidA) ∧
    (callback_pair_bothGetFirst s now store pkce state (.ok toks) (.ok toks2)
        sidA sidB).response2
      = .redirect s.frontend_url (set_session_cookie s sidB) := by
  simp only [callback, callback_pair_bothGetFirst, hp, callback_afterGet]
  refine ⟨get_session_store_self s store newSid _, ?_, ?_, ?_, ?_, ?_, ?_⟩
  · intro k hk
    exact get_session_store_other s store newSid k _ hk
  · exact pkce_get_delete_self pkce state
  · trivial
  · simp [pkce_get_delete_self]
  · trivial
  · trivial

/-- C3 amended witness: the amended claim applied at the concrete inputs
of the counterexample: the first Callback creates the session and
consumes the binding. -/
theorem callback_consume_once_witness :
    pkce_get (callback sampleSettings 500 [] samplePkce "st0"
        (.ok sampleToks) "sidA").pkce "st0" = none :=
  (callback_consume_once sampleSettings 500 [] samplePkce "st0" "ver0" "sidA"
    "sidB" "sidA" "sidB" sampleToks sampleToks2 .rejected (by decide)).2.2.1

/-- C5 counterexample: corruptStore holds a not-yet-expired session whose
stored access token does not decrypt under the configured key.  Validate
attempts the decryption in its final step, outside the try/except, so
the failure is an uncaught exception: a 500 response, and the session
record is left in the store, contradicting the claimed delete-and-401. -/
theorem invalid_ciphertext_cex :
    (validate_session sampleSettings 1000 corruptStore (some "sidC")
        .rejected).response = .err 500 "Internal Server Error" ∧
    get_session (validate_session sampleSettings 1000 corruptStore (some "sidC")
        .rejected).store "sidC" = some corruptSession := by
  decide

/-- C5 amended: a decryption failure of the stored refresh token on the
refresh path does delete the session and answer 401 in both Session-Info
and Validate, but a decryption failure of the stored access token in
Validate's final step (the only place the access token is ever
decrypted, and the source's one decrypt outside a try/except) yields an
uncaught 500 and leaves the session record in the store; Session-Info
never decrypts the access token at all. -/
theorem invalid_ciphertext_handling
    (s : Settings) (now : Nat) (store : Store) (sid newSid : String)
    (sess : SessionData) (up : UpstreamResult)
    (hget : get_session store sid = some sess) :
    (sess.access_token_expires_at ≤ now →
       decrypt_token s sess.refresh_token = none →
       (validate_session s now store (some sid) up).store
         = delete_session store sid ∧
       (validate_session s now store (some sid) up).response
         = .err 401 "Session expired" ∧
       (get_session_info s now store (some sid) up newSid).store
         = delete_session store sid ∧
       (get_session_info s now store (some sid) up newSid).response
         = .err 401 "Session expired") ∧
    (now < sess.access_token_expires_at →
       decrypt_token s sess.access_token = none →
       (validate_session s now store (some sid) up).store = store ∧
       (validate_session s now store (some sid) up).response
         = .err 500 "Internal Server Error") := by
  constructor
  · intro hexp hdec
    simp only [validate_session, get_session_info, hget]
    simp only [validate_afterRead, info_afterRead, if_pos hexp, hdec]
    simp
  · intro hfresh hdec
    have hn : ¬ sess.access_token_expires_at ≤ now := not_le.mpr hfresh
    simp only [validate_session, hget]
    simp only [validate_afterRead, if_neg hn, hdec]
    simp

/-- C5 amended witness: the amended claim applied at the corrupt store of
the counterexample. -/
theorem invalid_ciphertext_handling_witness :
    (validate_session sampleSettings 1000 corruptStore (some "sidC")
        .rejected).store = corruptStore :=
  ((invalid_ciphertext_handling sampleSettings 1000 corruptStore "sidC" "new0"
    corruptSession .rejected (by decide)).2 (by decide) (by decide)).1

/-- C6: raw token values are neither persisted nor sent to the browser:
the record Callback stores holds exactly the encrypt-images of the
provider tokens; the Callback response is the front-end redirect with
the opaque-identifier cookie, identical for any two token responses; the
cookie built by set_session_cookie carries exactly the session
identifier with httponly, secure, SameSite=lax and max-age the session
TTL; and the Session-Info body is exactly the authenticated flag and the
validity deadline, unchanged when the stored ciphertexts are replaced by
any others. -/
theorem no_raw_token_stored_or_sent
    (s : Settings) (now : Nat) (store : Store) (pkce : PkceStore)
    (state v newSid sid : String) (sess : SessionData)
    (toks toks2 : TokenResponse) (c1 c2 : Ciphertext) (up up2 : UpstreamResult)
    (hp : pkce_get pkce state = some v)
    (hget : get_session store sid = some sess)
    (hfresh : now < sess.access_token_expires_at) :
    get_session (callback s now store pkce state (.ok toks) newSid).store newSid
      = some ⟨encrypt_token s toks.access_token, encrypt_token s toks.refresh_token,
              now + toks.expires_in.getD s.access_token_ttl, now, none⟩ ∧
    (callback s now store pkce state (.ok toks) newSid).response
      = .redirect s.frontend_url (set_session_cookie s newSid) ∧
    (callback s now store pkce state (.ok toks) newSid).response
      = (callback s now store pkce state (.ok toks2) newSid).response ∧
    (set_session_cookie s newSid).value = newSid ∧
    (set_session_cookie s newSid).http_only = true ∧
    (set_session_cookie s newSid).secure = true ∧
    (set_session_cookie s newSid).same_site = "lax" ∧
    (set_session_cookie s newSid).max_age = s.session_ttl ∧
    (get_session_info s now store (some sid) up newSid).response
      = .ok true (sess.created_at + s.session_ttl) (set_session_cookie s newSid) ∧
    (info_afterRead s now store sid
        { sess with access_token := c1, refresh_token := c2 } up2 newSid).response
      = .ok true (sess.created_at + s.session_ttl) (set_session_cookie s newSid) := by
  have hn : ¬ sess.access_token_expires_at ≤ now := not_le.mpr hfresh
  simp only [callback, hp, callback_afterGet]
  refine ⟨get_session_store_self s store newSid _, ?_, ?_, ?_, ?_, ?_,
    ?_, ?_, ?_, ?_⟩
  · trivial
  · trivial
  · trivial
  · trivial
  · trivial
  · trivial
  · trivial
  · simp only [get_session_info, hget, info_afterRead, if_neg hn]
  · simp only [info_afterRead, if_neg hn]

/-- C6 witness: the invariant applied at the sample fixtures at time 700,
before expiry. -/
theorem no_raw_token_stored_or_sent_witness :
    (get_session_info sampleSettings 700 sampleStore (some "sid0") .rejected
        "new0").response
      = .ok true 4100 (set_session_cookie sampleSettings "new0") :=
  (no_raw_token_stored_or_sent sampleSettings 700 sampleStore samplePkce "st0"
    "ver0" "new0" "sid0" sampleSession sampleToks sampleToks2 ⟨9, "x"⟩ ⟨9, "y"⟩
    .rejected .unavailable (by decide) (by decide) (by decide)).2.2.2.2.2.2.2.2.1

/-- C7: whenever Session-Info succeeds, the prior identifier no longer
resolves in the store, the brand-new identifier resolves to the
equivalent (unchanged, or refreshed when expiry had passed) session
record, the new cookie carries the new identifier, and the body is
exactly the authenticated flag and the validity deadline, never a
token. -/
theorem session_info_rotates
    (s : Settings) (now : Nat) (store : Store) (sid newSid : String)
    (sess : SessionData) (up : UpstreamResult) (toks : TokenResponse)
    (rt : String)
    (hget : get_session store sid = some sess)
    (hne : newSid ≠ sid) :
    (now < sess.access_token_expires_at →
       get_session (get_session_info s now store (some sid) up newSid).store sid
         = none ∧
       get_session (get_session_info s now store (some sid) up newSid).store
           newSid = some sess ∧
       (get_session_info s now store (some sid) up newSid).response
         = .ok true (sess.created_at + s.session_ttl)
             (set_session_cookie s newSid)) ∧
    (sess.access_token_expires_at ≤ now →
       decrypt_token s sess.refresh_token = some rt →
       get_session (get_session_info s now store (some sid) (.ok toks)
           newSid).store sid = none ∧
       get_session (get_session_info s now store (some sid) (.ok toks)
           newSid).store newSid = some (refreshed_session s now sess toks) ∧
       (get_session_info s now store (some sid) (.ok toks) newSid).response
         = .ok true (sess.created_at + s.session_ttl)
             (set_session_cookie s newSid)) := by
  have hold : sid ≠ newSid := fun hk => hne hk.symm
  constructor
  · intro h
    have hn : ¬ sess.access_token_expires_at ≤ now := not_le.mpr h
    simp only [get_session_info, hget, info_afterRead, if_neg hn]
    refine ⟨?_, get_session_store_self s _ newSid sess, trivial⟩
    rw [get_session_store_other s _ newSid sid sess hold]
    exact get_session_delete_self store sid
  · intro hexp hdec
    simp only [get_session_info, hget, info_afterRead, if_pos hexp, hdec]
    refine ⟨?_, ?_, ?_⟩
    · rw [get_session_store_other s _ newSid sid _ hold]
      exact get_session_delete_self store sid
    · exact get_session_store_self s _ newSid _
    · simp [refreshed_session]

/-- C7 witness: at time 700 on the sample store, rotating sid0 to new0
removes sid0 and answers with the fixed body. -/
theorem session_info_rotates_witness :
    get_session (get_session_info sampleSettings 700 sampleStore (some "sid0")
        .rejected "new0").store "sid0" = none :=
  ((session_info_rotates sampleSettings 700 sampleStore "sid0" "new0"
    sampleSession .rejected sampleToks "ref0" (by decide) (by decide)).1
    (by decide)).1

/-- C8: Validate never rotates: a refresh result is persisted under the
same session identifier, every other identifier is untouched, and the
response is the decrypted raw access token (after a refresh, exactly the
provider's new access token). -/
theorem validate_no_rotation
    (s : Settings) (now : Nat) (store : Store) (sid : String)
    (sess : SessionData) (toks : TokenResponse) (up : UpstreamResult)
    (rta rtr : String)
    (hget : get_session store sid = some sess) :
    (now < sess.access_token_expires_at →
       decrypt_token s sess.access_token = some rta →
       (validate_session s now store (some sid) up).store = store ∧
       (validate_session s now store (some sid) up).response = .ok rta) ∧
    (sess.access_token_expires_at ≤ now →
       decrypt_token s sess.refresh_token = some rtr →
       get_session (validate_session s now store (some sid) (.ok toks)).store sid
         = some (refreshed_session s now sess toks) ∧
       (∀ k, k ≠ sid →
          get_session (validate_session s now store (some sid) (.ok toks)).store k
            = get_session store k) ∧
       (validate_session s now store (some sid) (.ok toks)).response
         = .ok toks.access_token) := by
  constructor
  · intro h hdec
    have hn : ¬ sess.access_token_expires_at ≤ now := not_le.mpr h
    simp only [validate_session, hget, validate_afterRead, if_neg hn, hdec]
    exact ⟨trivial, trivial⟩
  · intro hexp hdec
    simp only [validate_session, hget, validate_afterRead, if_pos hexp, hdec]
    simp only [refreshed_session, decrypt_encrypt]
    refine ⟨get_session_store_self s store sid _, ?_, trivial⟩
    intro k hk
    exact get_session_store_other s store sid k _ hk

/-- C8 witness: at time 1000 on the sample store, a successful refresh is
stored under sid0 itself and the new raw access token is returned. -/
theorem validate_no_rotation_witness :
    (validate_session sampleSettings 1000 sampleStore (some "sid0")
        (.ok sampleToks)).response = .ok "acc1" :=
  ((validate_no_rotation sampleSettings 1000 sampleStore "sid0" sampleSession
    sampleToks .rejected "acc0" "ref0" (by decide)).2 (by decide)
    (by decide)).2.2

/-- C9: for every request carrying a session cookie, Logout deletes the
local session record and clears the cookie unconditionally and returns
the plain front-end redirect, with an outcome independent of whether the
best-effort provider revoke succeeded or failed. -/
theorem logout_unconditional
    (s : Settings) (store : Store) (sid : String) (r r2 : RevokeResult) :
    (logout s store (some sid) r).store = delete_session store sid ∧
    (logout s store (some sid) r).cookie_cleared = true ∧
    (logout s store (some sid) r).redirect_url = s.frontend_url ∧
    logout s store (some sid) r = logout s store (some sid) r2 := by
  cases r <;> cases r2 <;> simp [logout]

/-- C10: created_at is written exactly once, by Callback, as the creation
time; a refresh replaces only the two encrypted tokens and the expiry; a
rotation re-stores the very same record (hence the same created_at) with
a fresh full TTL in the backing store; and the session_valid_until value
Session-Info reports is always created_at + session_ttl on both the
fresh and the refresh path. -/
theorem created_at_immutable
    (s : Settings) (now : Nat) (store : Store) (sid newSid : String)
    (sess : SessionData) (toks : TokenResponse) (up : UpstreamResult)
    (rt : String)
    (hget : get_session store sid = some sess) :
    (refreshed_session s now sess toks).created_at = sess.created_at ∧
    (refreshed_session s now sess toks).user_info = sess.user_info ∧
    (refreshed_session s now sess toks).access_token
      = encrypt_token s toks.access_token ∧
    (refreshed_session s now sess toks).refresh_token
      = encrypt_token s toks.refresh_token ∧
    (refreshed_session s now sess toks).access_token_expires_at
      = now + toks.expires_in.getD s.access_token_ttl ∧
    (∀ pkce state v sidN, pkce_get pkce state = some v →
       (get_session (callback s now store pkce state (.ok toks) sidN).store
           sidN).map SessionData.created_at = some now) ∧
    (now < sess.access_token_expires_at →
       get_entry (get_session_info s now store (some sid) up newSid).store newSid
         = some ⟨newSid, sess, s.session_ttl⟩ ∧
       (get_session_info s now store (some sid) up newSid).response
         = .ok true (sess.created_at + s.session_ttl)
             (set_session_cookie s newSid)) ∧
    (sess.access_token_expires_at ≤ now →
       decrypt_token s sess.refresh_token = some rt →
       get_entry (get_session_info s now store (some sid) (.ok toks)
           newSid).store newSid
         = some ⟨newSid, refreshed_session s now sess toks, s.session_ttl⟩ ∧
       (get_session_info s now store (some sid) (.ok toks) newSid).response
         = .ok true (sess.created_at + s.session_ttl)
             (set_session_cookie s newSid) ∧
       (get_session (validate_session s now store (some sid) (.ok toks)).store
           sid).map SessionData.created_at = some sess.created_at) := by
  refine ⟨rfl, rfl, rfl, rfl, rfl, ?_, ?_, ?_⟩
  · intro pkce state v sidN hp
    simp only [callback, hp, callback_afterGet]
    rw [get_session_store_self]
    rfl
  · intro h
    have hn : ¬ sess.access_token_expires_at ≤ now := not_le.mpr h
    simp only [get_session_info, hget, info_afterRead, if_neg hn]
    exact ⟨get_entry_store_self s _ newSid sess, trivial⟩
  · intro hexp hdec
    simp only [get_session_info, validate_session, hget, info_afterRead,
      validate_afterRead, if_pos hexp, hdec]
    refine ⟨get_entry_store_self s _ newSid _, by simp [refreshed_session], ?_⟩
    simp only [refreshed_session, decrypt_encrypt]
    rw [get_session_store_self]
    rfl

/-- C10 witness: on the sample store, the refresh path at time 1000 keeps
created_at = 500 under sid0 and Session-Info still reports 500 + 3600. -/
theorem created_at_immutable_witness :
    (get_session (validate_session sampleSettings 1000 sampleStore (some "sid0")
        (.ok sampleToks)).store "sid0").map SessionData.created_at = some 500 :=
  ((created_at_immutable sampleSettings 1000 sampleStore "sid0" "new0"
    sampleSession sampleToks .rejected "ref0" (by decide)).2.2.2.2.2.2.2
    (by decide) (by decide)).2.2

end BionicAuth
